import Mathlib

/-!
Verification development for the RAG backend (`backend/llmModels/rag.py`,
`backend/services/text_processing.py`, `backend/llmModels/llm.py`,
`backend/db/vector.py`, `backend/db/chatMemory.py`,
`backend/api/v1/ingestion.py`).

Modelling conventions:
* Python strings are lists of characters (`Str`); `len` is `List.length`.
* Similarity scores and the sampling temperature are rationals.
* External collaborators (embedding provider, vector search, language model)
  are oracle functions returning `Except` values: `Except.error` models a
  raised exception, which the Python code propagates unless caught.
* The per-session Redis list is a `List Msg`; `rpush` appends at the end and
  `lrange key (-limit) (-1)` reads the last `limit` entries, oldest first.
* Every external call made by `generate_response` is recorded in an ordered
  trace of `CallEvent`s so that claims about calls that must or must not
  happen can be stated.
-/

/-- Python strings, modelled as lists of characters. -/
abbrev Str := List Char

/-- Coerce a Lean string literal to the `Str` model. -/
def str (s : String) : Str := s.data

/-- Python's `sep.join(parts)`. -/
def joinSep (sep : Str) : List Str → Str
  | [] => []
  | [part] => part
  | part :: parts => part ++ sep ++ joinSep sep parts

/-- Decimal rendering of a natural number, as used by Python f-strings. -/
def natStr (n : Nat) : Str := (Nat.repr n).data

/-- Python's `str.title()` on a single token: a cased character after an
uncased one is uppercased, after a cased one lowercased. -/
def py_title_go : Bool → Str → Str
  | _, [] => []
  | prev_alpha, ch :: rest =>
    (if ch.isAlpha then (if prev_alpha then ch.toLower else ch.toUpper) else ch) ::
      py_title_go ch.isAlpha rest

/-- Python's `str.title()` (`chatMemory.py` applies it to message roles). -/
def py_title (s : Str) : Str := py_title_go false s

/-- One raw vector-search hit: `vector.py` `QdrantStore.search` returns
dictionaries `{id, score, metadata}`; the metadata payload fields used by
`rag.py` are flattened into the record. -/
structure SearchResult where
  id : Str
  score : Rat
  chunk_text : Str
  document_id : Str
  filename : Str
deriving DecidableEq

/-- A retrieved chunk as built by `CustomRAGService.retrieve_relevant_chunks`. -/
structure RetrievedChunk where
  chunk_id : Str
  text : Str
  score : Rat
  document_id : Str
  filename : Str
deriving DecidableEq

/-- A chat message `{role, content}` (timestamps are not modelled). -/
structure Msg where
  role : Str
  content : Str
deriving DecidableEq

/-- The external calls `generate_response` can make, in order. -/
inductive CallEvent where
  | embed (query : Str)
  | search (vector : List Rat) (top_k : Nat)
  | llm (messages : List Msg)
  | memRead (session_id : Str) (max_messages : Nat)
  | memAppend (session_id : Str) (role : Str) (content : Str)
deriving DecidableEq

/-- Whether an event is a Retrieval-Gate collaborator call (embedding
generation or vector search). -/
def CallEvent.isRetrievalCall : CallEvent → Bool
  | CallEvent.embed _ => true
  | CallEvent.search _ _ => true
  | _ => false

/-- The settings fields `generate_response` reads (`config/settings.py`). -/
structure Settings where
  llm_temperature : Rat
  max_tokens : Nat

/-- The `CustomRAGService` instance: its collaborators as oracle functions
plus its numeric configuration (`rag.py` lines 16-34). The conversation
store is threaded explicitly as a `List Msg`. -/
structure CustomRAGService where
  embedding_service : Str → Except Str (List Rat)
  vector_store_search : List Rat → Nat → Except Str (List SearchResult)
  llm_service : List Msg → Rat → Nat → Except Str Str
  settings : Settings
  top_k : Nat
  similarity_threshold : Rat
  max_context_length : Nat

/-- The chunk dictionary built for one passing search result
(`rag.py` lines 53-59). -/
def result_to_chunk (result : SearchResult) : RetrievedChunk :=
  { chunk_id := result.id
    text := result.chunk_text
    score := result.score
    document_id := result.document_id
    filename := result.filename }

/-- The pure filtering step of `retrieve_relevant_chunks` (`rag.py` lines
52-62): the list comprehension keeps, in order, exactly the results whose
score is at or above the threshold. -/
def relevant_chunks_filter (results : List SearchResult) (threshold : Rat) :
    List RetrievedChunk :=
  (results.filter (fun result => threshold ≤ result.score)).map result_to_chunk

/-- `CustomRAGService.retrieve_relevant_chunks` (`rag.py` lines 36-65):
embed the query, search the vector store with `top_k`, filter by the
similarity threshold. An exception from either collaborator propagates.
The first component records the collaborator calls made. -/
def retrieve_relevant_chunks (svc : CustomRAGService) (query : Str) :
    List CallEvent × Except Str (List RetrievedChunk) :=
  match svc.embedding_service query with
  | Except.error e => ([CallEvent.embed query], Except.error e)
  | Except.ok query_embedding =>
    match svc.vector_store_search query_embedding svc.top_k with
    | Except.error e =>
      ([CallEvent.embed query, CallEvent.search query_embedding svc.top_k], Except.error e)
    | Except.ok results =>
      ([CallEvent.embed query, CallEvent.search query_embedding svc.top_k],
       Except.ok (relevant_chunks_filter results svc.similarity_threshold))

/-- The f-string `"[Source {i} - {filename}]\n{chunk_text}"` of
`rag.py` lines 82-84. -/
def source_label (i : Nat) (chunk : RetrievedChunk) : Str :=
  str "[Source " ++ natStr i ++ str " - " ++ chunk.filename ++ str "]\n" ++ chunk.text

/-- The loop of `_build_context` (`rag.py` lines 72-85): `i` is the
1-based enumeration index and `total_length` the running character count of
the raw chunk texts accepted so far; the loop breaks before the first chunk
whose text would push `total_length` past `max_context_length`. -/
def build_context_parts (max_context_length : Nat) :
    Nat → Nat → List RetrievedChunk → List Str
  | _, _, [] => []
  | i, total_length, chunk :: rest =>
    if max_context_length < total_length + chunk.text.length then []
    else
      source_label i chunk ::
        build_context_parts max_context_length (i + 1)
          (total_length + chunk.text.length) rest

/-- `CustomRAGService._build_context` (`rag.py` lines 67-87): empty input
gives the empty string, otherwise the accepted parts joined by blank lines. -/
def build_context (svc : CustomRAGService) (chunks : List RetrievedChunk) : Str :=
  if chunks.isEmpty then []
  else joinSep (str "\n\n") (build_context_parts svc.max_context_length 1 0 chunks)

/-- The chunks (rather than their formatted labels) accepted by the
`_build_context` loop, with the same accumulator discipline; used to state
properties of the builder. -/
def included_chunks_loop (max_context_length : Nat) :
    Nat → List RetrievedChunk → List RetrievedChunk
  | _, [] => []
  | total_length, chunk :: rest =>
    if max_context_length < total_length + chunk.text.length then []
    else
      chunk ::
        included_chunks_loop max_context_length (total_length + chunk.text.length) rest

/-- The chunks `_build_context` includes wholesale in its output. -/
def included_chunks (svc : CustomRAGService) (chunks : List RetrievedChunk) :
    List RetrievedChunk :=
  included_chunks_loop svc.max_context_length 0 chunks

/-- Formatting of a chunk list with 1-based labels starting at `i`. -/
def label_from (i : Nat) : List RetrievedChunk → List Str
  | [] => []
  | chunk :: rest => source_label i chunk :: label_from (i + 1) rest

/-- Total character count of the raw texts of a chunk list: the quantity
the `_build_context` loop accumulates in `total_length`. -/
def raw_text_length : List RetrievedChunk → Nat
  | [] => 0
  | chunk :: rest => chunk.text.length + raw_text_length rest

/-- `RedisMemoryManager.get_history` (`chatMemory.py` lines 67-84): with a
nonzero (truthy) limit, the last `limit` messages in insertion order;
with limit 0 the whole list. -/
def get_history (store : List Msg) (limit : Nat) : List Msg :=
  if limit ≠ 0 then store.drop (store.length - limit) else store

/-- A formatted history line `f"{role.title()}: {content}"`
(`chatMemory.py` line 111). -/
def format_history_line (msg : Msg) : Str :=
  py_title msg.role ++ str ": " ++ msg.content

/-- `RedisMemoryManager.get_context_window` (`chatMemory.py` lines 96-113). -/
def get_context_window (store : List Msg) (max_messages : Nat) : Str :=
  let history := get_history store max_messages
  if history.isEmpty then []
  else joinSep (str "\n\n") (history.map format_history_line)

/-- The grounded system prompt of `rag.py` lines 121-131, an f-string with
the built context interpolated. -/
def grounded_system_prompt (context : Str) : Str :=
  str "You are a helpful AI assistant. Use the following context from documents to answer the user's question. If the context doesn't contain relevant information, say so and provide a helpful response based on your general knowledge.\n\n                Context from documents:\n                " ++
    context ++
    str "\n\n                Guidelines:\n                - Answer based on the context when possible\n                - Be concise and accurate\n                - If booking an interview, guide the user through the process\n                - Be conversational and friendly\n                "

/-- The ungrounded system prompt of `rag.py` line 134. -/
def ungrounded_system_prompt : Str :=
  str "You are a helpful AI assistant. The knowledge base doesn't contain information relevant to this query. Provide a helpful response based on your general knowledge, or guide the user to ask questions related to the available documents."

/-- The plain conversational system prompt of `rag.py` line 137. -/
def plain_system_prompt : Str :=
  str "You are a helpful AI assistant. Answer the user's questions in a friendly and informative manner."

/-- The message list sent to the language model (`rag.py` lines 110,
139-149): the mode-specific system prompt, the previous-conversation system
message when history is nonempty, then the user query. -/
def prompt_messages (system_prompt history query : Str) : List Msg :=
  [{ role := str "system", content := system_prompt }] ++
    (if history.isEmpty then []
     else [{ role := str "system", content := str "Previous conversation:\n" ++ history }]) ++
    [{ role := str "user", content := query }]

/-- The outcome of one `generate_response` call: the ordered trace of
external calls, the returned value or propagated exception, and the
session's conversation store after the call. -/
structure TurnOutcome where
  trace : List CallEvent
  result : Except Str (Str × List RetrievedChunk)
  store : List Msg

/-- The tail of `generate_response` shared by all three branches
(`rag.py` lines 139-162): build the message list, call the language model,
and on success append the user query then the assistant answer to the
conversation store. A language-model exception propagates before any
append happens. -/
def generate_finish (svc : CustomRAGService) (store : List Msg)
    (session_id query history : Str) (trace : List CallEvent)
    (system_prompt : Str) (sources : List RetrievedChunk) : TurnOutcome :=
  let messages := prompt_messages system_prompt history query
  match svc.llm_service messages svc.settings.llm_temperature svc.settings.max_tokens with
  | Except.error e => ⟨trace ++ [CallEvent.llm messages], Except.error e, store⟩
  | Except.ok response =>
    ⟨trace ++
       [CallEvent.llm messages,
        CallEvent.memAppend session_id (str "user") query,
        CallEvent.memAppend session_id (str "assistant") response],
     Except.ok (response, sources),
     store ++
       [{ role := str "user", content := query },
        { role := str "assistant", content := response }]⟩

/-- `CustomRAGService.generate_response` (`rag.py` lines 89-162): read the
6-message history window, branch on `use_rag` (retrieval, then grounded or
ungrounded prompt; or the plain prompt with no retrieval), call the model,
append the exchange. Exceptions from retrieval or generation propagate. -/
def generate_response (svc : CustomRAGService) (store : List Msg)
    (session_id query : Str) (use_rag : Bool) : TurnOutcome :=
  let conversation_history := get_context_window store 6
  let trace0 := [CallEvent.memRead session_id 6]
  if use_rag then
    match retrieve_relevant_chunks svc query with
    | (rtrace, Except.error e) => ⟨trace0 ++ rtrace, Except.error e, store⟩
    | (rtrace, Except.ok sources) =>
      let system_prompt :=
        if sources.isEmpty then ungrounded_system_prompt
        else grounded_system_prompt (build_context svc sources)
      generate_finish svc store session_id query conversation_history
        (trace0 ++ rtrace) system_prompt sources
  else
    generate_finish svc store session_id query conversation_history trace0
      plain_system_prompt []

/-- `ChunkingService.chunk_text` (`text_processing.py` lines 72-83): the
two strategy implementations call an external text-splitting library and
are passed in as oracles; an unknown strategy raises `ValueError`. -/
def chunk_text (chunk_fixed chunk_semantic : Str → List Str)
    (strategy text : Str) : Except Str (List Str) :=
  if strategy = str "fixed" then Except.ok (chunk_fixed text)
  else if strategy = str "semantic" then Except.ok (chunk_semantic text)
  else Except.error (str "Unknown chunking strategy: " ++ strategy)

/-- The chunking step of the `upload_document` request handler
(`ingestion.py` lines 84-90): a `ChunkingService` is constructed inside the
handler and `chunk_text` is called with the request's `chunking_strategy`
form field, so any strategy error arises while handling that request. -/
def upload_document_chunking (chunk_fixed chunk_semantic : Str → List Str)
    (chunking_strategy text : Str) : Except Str (List Str) :=
  chunk_text chunk_fixed chunk_semantic chunking_strategy text

/-- The LLM service implementations available (`llm.py`). -/
inductive LLMProviderKind where
  | openai
deriving DecidableEq

/-- `create_llm_service` (`llm.py` lines 85-93), run once at startup when
`backend/services/services.py` is imported. -/
def create_llm_service (llm_provider : Str) : Except Str LLMProviderKind :=
  if llm_provider = str "openai" then Except.ok LLMProviderKind.openai
  else Except.error (str "Unsupported LLM provider: " ++ llm_provider)

/-- The vector store implementations available (`vector.py`). -/
inductive VectorStoreKind where
  | qdrant
deriving DecidableEq

/-- `create_vector_store` (`vector.py` lines 148-158), run once at startup
when `backend/services/services.py` is imported. -/
def create_vector_store (vector_db_type : Str) : Except Str VectorStoreKind :=
  if vector_db_type = str "qdrant" then Except.ok VectorStoreKind.qdrant
  else Except.error (str "Unsupported vector DB type: " ++ vector_db_type)

/-! Helper lemmas about the context-builder loop. -/

/-- Every part of a joined list occurs contiguously in the joined string. -/
theorem joinSep_contains_part (sep : Str) :
    ∀ (parts : List Str) (x : Str), x ∈ parts →
      ∃ pre post, joinSep sep parts = pre ++ x ++ post := by
  intro parts
  induction parts with
  | nil => intro x hx; cases hx
  | cons p rest ih =>
    intro x hx
    cases rest with
    | nil =>
      rcases List.mem_singleton.mp hx with rfl
      exact ⟨[], [], by simp [joinSep]⟩
    | cons q rest2 =>
      rcases List.mem_cons.mp hx with rfl | hmem
      · exact ⟨[], sep ++ joinSep sep (q :: rest2), by simp [joinSep]⟩
      · rcases ih x hmem with ⟨pre, post, hEq⟩
        refine ⟨p ++ sep ++ pre, post, ?_⟩
        simp [joinSep, hEq]

/-- The formatted parts of the builder loop are the labels of the chunks the
loop accepts. -/
theorem build_context_parts_eq_label_from (m : Nat) :
    ∀ (chunks : List RetrievedChunk) (i total : Nat),
      build_context_parts m i total chunks =
        label_from i (included_chunks_loop m total chunks) := by
  intro chunks
  induction chunks with
  | nil => intro i total; rfl
  | cons c rest ih =>
    intro i total
    by_cases h : m < total + c.text.length
    · simp [build_context_parts, included_chunks_loop, h, label_from]
    · simp [build_context_parts, included_chunks_loop, h, label_from, ih]

/-- Every member of a chunk list has a label in its formatted rendering. -/
theorem label_from_mem (c : RetrievedChunk) :
    ∀ (chunks : List RetrievedChunk) (i : Nat), c ∈ chunks →
      ∃ j, source_label j c ∈ label_from i chunks := by
  intro chunks
  induction chunks with
  | nil => intro i h; cases h
  | cons c0 rest ih =>
    intro i h
    rcases List.mem_cons.mp h with rfl | hmem
    · exact ⟨i, by simp [label_from]⟩
    · rcases ih (i + 1) hmem with ⟨j, hj⟩
      exact ⟨j, by simp [label_from, hj]⟩

/-- Budget invariant of the builder loop: starting from an accumulated count
within budget, the raw text the loop accepts keeps the count within budget. -/
theorem included_chunks_loop_raw_le (m : Nat) :
    ∀ (chunks : List RetrievedChunk) (total : Nat), total ≤ m →
      total + raw_text_length (included_chunks_loop m total chunks) ≤ m := by
  intro chunks
  induction chunks with
  | nil => intro total h; simpa [included_chunks_loop, raw_text_length] using h
  | cons c rest ih =>
    intro total h
    by_cases hc : m < total + c.text.length
    · simpa [included_chunks_loop, hc, raw_text_length] using h
    · push_neg at hc
      have hrec := ih (total + c.text.length) hc
      simp only [included_chunks_loop, hc, if_neg (not_lt.mpr hc), raw_text_length]
      omega

/-- The chunks the builder loop accepts form a prefix of its input. -/
theorem included_chunks_loop_fits (m : Nat) :
    ∀ (chunks : List RetrievedChunk) (total : Nat),
      ∃ t, included_chunks_loop m total chunks ++ t = chunks := by
  intro chunks
  induction chunks with
  | nil => intro total; exact ⟨[], rfl⟩
  | cons c rest ih =>
    intro total
    by_cases hc : m < total + c.text.length
    · exact ⟨c :: rest, by simp [included_chunks_loop, hc]⟩
    · rcases ih (total + c.text.length) with ⟨t, ht⟩
      exact ⟨t, by simp [included_chunks_loop, hc, ht]⟩

/-- Greedy stop: the first chunk the loop leaves out (the head of the rest of
the input) would push the accumulated raw text count past the budget. -/
theorem included_chunks_loop_stop (m : Nat) :
    ∀ (chunks : List RetrievedChunk) (total : Nat) (c : RetrievedChunk),
      (chunks.drop (included_chunks_loop m total chunks).length).head? = some c →
      m < total + raw_text_length (included_chunks_loop m total chunks) + c.text.length := by
  intro chunks
  induction chunks with
  | nil => intro total c h; simp [included_chunks_loop] at h
  | cons c0 rest ih =>
    intro total c h
    by_cases hc : m < total + c0.text.length
    · simp only [included_chunks_loop, if_pos hc, List.length_nil, List.drop_zero,
        List.head?_cons, Option.some.injEq, raw_text_length] at h ⊢
      subst h
      omega
    · simp only [included_chunks_loop, if_neg hc, List.length_cons, List.drop_succ_cons,
        raw_text_length] at h ⊢
      have hrec := ih (total + c0.text.length) c h
      omega

/-- On nonempty input, the built context is the blank-line join of the
labels of the accepted chunks. -/
theorem build_context_eq_join (svc : CustomRAGService)
    (chunks : List RetrievedChunk) (h : chunks ≠ []) :
    build_context svc chunks =
      joinSep (str "\n\n") (label_from 1 (included_chunks svc chunks)) := by
  cases chunks with
  | nil => cases h rfl
  | cons c rest =>
    simp [build_context, build_context_parts_eq_label_from, included_chunks]

/-- The empty chunk sequence builds the empty context. -/
theorem build_context_nil (svc : CustomRAGService) : build_context svc [] = [] := rfl

/-- When the first chunk's text alone exceeds the budget, the context is
empty. -/
theorem build_context_first_too_long (svc : CustomRAGService)
    (chunk : RetrievedChunk) (rest : List RetrievedChunk)
    (h : svc.max_context_length < chunk.text.length) :
    build_context svc (chunk :: rest) = [] := by
  simp [build_context, build_context_parts, h, joinSep]

/-- Each accepted chunk's text occurs wholesale in the built context. -/
theorem build_context_wholesale (svc : CustomRAGService)
    (chunks : List RetrievedChunk) (chunk : RetrievedChunk)
    (h : chunk ∈ included_chunks svc chunks) :
    ∃ pre post, build_context svc chunks = pre ++ chunk.text ++ post := by
  have hne : chunks ≠ [] := by
    intro h0
    subst h0
    simp [included_chunks, included_chunks_loop] at h
  rcases label_from_mem chunk (included_chunks svc chunks) 1 h with ⟨j, hj⟩
  rcases joinSep_contains_part (str "\n\n") _ _ hj with ⟨pre, post, hEq⟩
  refine ⟨pre ++ (str "[Source " ++ natStr j ++ str " - " ++ chunk.filename ++ str "]\n"),
    post, ?_⟩
  rw [build_context_eq_join svc chunks hne, hEq]
  simp [source_label]

/-! Unfolding lemmas for `generate_response`. -/

/-- With `use_rag = false`, `generate_response` goes straight to the shared
tail with the plain prompt and no sources. -/
theorem generate_response_no_rag (svc : CustomRAGService) (store : List Msg)
    (session_id query : Str) :
    generate_response svc store session_id query false =
      generate_finish svc store session_id query (get_context_window store 6)
        [CallEvent.memRead session_id 6] plain_system_prompt [] := by
  simp [generate_response]

/-- With `use_rag = true` and a retrieval exception, the exception
propagates: no model call, store unchanged. -/
theorem generate_response_retrieval_error (svc : CustomRAGService)
    (store : List Msg) (session_id query : Str) (rtrace : List CallEvent) (e : Str)
    (h : retrieve_relevant_chunks svc query = (rtrace, Except.error e)) :
    generate_response svc store session_id query true =
      ⟨[CallEvent.memRead session_id 6] ++ rtrace, Except.error e, store⟩ := by
  simp [generate_response, h]

/-- With `use_rag = true` and successful retrieval, `generate_response`
reaches the shared tail with the grounded or ungrounded prompt according to
whether any chunk cleared the threshold. -/
theorem generate_response_retrieval_ok (svc : CustomRAGService)
    (store : List Msg) (session_id query : Str) (rtrace : List CallEvent)
    (sources : List RetrievedChunk)
    (h : retrieve_relevant_chunks svc query = (rtrace, Except.ok sources)) :
    generate_response svc store session_id query true =
      generate_finish svc store session_id query (get_context_window store 6)
        ([CallEvent.memRead session_id 6] ++ rtrace)
        (if sources.isEmpty then ungrounded_system_prompt
         else grounded_system_prompt (build_context svc sources)) sources := by
  simp [generate_response, h]

/-- A model-backend exception in the shared tail propagates with no append. -/
theorem generate_finish_llm_error (svc : CustomRAGService) (store : List Msg)
    (session_id query history : Str) (trace : List CallEvent)
    (system_prompt : Str) (sources : List RetrievedChunk) (e : Str)
    (h : svc.llm_service (prompt_messages system_prompt history query)
        svc.settings.llm_temperature svc.settings.max_tokens = Except.error e) :
    generate_finish svc store session_id query history trace system_prompt sources =
      ⟨trace ++ [CallEvent.llm (prompt_messages system_prompt history query)],
       Except.error e, store⟩ := by
  simp [generate_finish, h]

/-- A successful model call in the shared tail returns the answer with the
sources and appends the user query then the assistant answer. -/
theorem generate_finish_llm_ok (svc : CustomRAGService) (store : List Msg)
    (session_id query history : Str) (trace : List CallEvent)
    (system_prompt : Str) (sources : List RetrievedChunk) (response : Str)
    (h : svc.llm_service (prompt_messages system_prompt history query)
        svc.settings.llm_temperature svc.settings.max_tokens = Except.ok response) :
    generate_finish svc store session_id query history trace system_prompt sources =
      ⟨trace ++
         [CallEvent.llm (prompt_messages system_prompt history query),
          CallEvent.memAppend session_id (str "user") query,
          CallEvent.memAppend session_id (str "assistant") response],
       Except.ok (response, sources),
       store ++
         [{ role := str "user", content := query },
          { role := str "assistant", content := response }]⟩ := by
  simp [generate_finish, h]

deriving instance DecidableEq for Except

/-! Concrete service instances used by witnesses and counterexamples.
Rationals are written with `mkRat` so that concrete goals evaluate. -/

/-- Settings values as configured in `config/settings.py`. -/
def stub_settings : Settings := { llm_temperature := mkRat 7 10, max_tokens := 1000 }

/-- The spec scenario's five search results with scores 0.9, 0.75, 0.6,
0.5, 0.3. -/
def scenario_result_1 : SearchResult :=
  { id := str "r1", score := mkRat 9 10, chunk_text := str "t1",
    document_id := str "d", filename := str "f" }

def scenario_result_2 : SearchResult :=
  { id := str "r2", score := mkRat 3 4, chunk_text := str "t2",
    document_id := str "d", filename := str "f" }

def scenario_result_3 : SearchResult :=
  { id := str "r3", score := mkRat 3 5, chunk_text := str "t3",
    document_id := str "d", filename := str "f" }

def scenario_result_4 : SearchResult :=
  { id := str "r4", score := mkRat 1 2, chunk_text := str "t4",
    document_id := str "d", filename := str "f" }

def scenario_result_5 : SearchResult :=
  { id := str "r5", score := mkRat 3 10, chunk_text := str "t5",
    document_id := str "d", filename := str "f" }

def scenario_results : List SearchResult :=
  [scenario_result_1, scenario_result_2, scenario_result_3,
   scenario_result_4, scenario_result_5]

/-- A service whose vector search returns the scenario results, with
threshold 0.7 and top_k 5. -/
def svc_scenario : CustomRAGService :=
  { embedding_service := fun _ => Except.ok [1]
    vector_store_search := fun _ _ => Except.ok scenario_results
    llm_service := fun _ _ _ => Except.ok (str "hello")
    settings := stub_settings
    top_k := 5
    similarity_threshold := mkRat 7 10
    max_context_length := 3000 }

/-- A service with context budget 20 whose collaborators all fail if
reached (the context builder itself never calls them). -/
def svc_budget_20 : CustomRAGService :=
  { embedding_service := fun _ => Except.error (str "unreachable")
    vector_store_search := fun _ _ => Except.error (str "unreachable")
    llm_service := fun _ _ _ => Except.error (str "unreachable")
    settings := stub_settings
    top_k := 5
    similarity_threshold := mkRat 7 10
    max_context_length := 20 }

/-- A chunk with a 10-character text. -/
def chunk_ten : RetrievedChunk :=
  { chunk_id := str "c1", text := str "aaaaaaaaaa", score := 1,
    document_id := str "d", filename := str "f" }

/-- A chunk with a 15-character text. -/
def chunk_fifteen : RetrievedChunk :=
  { chunk_id := str "c2", text := str "bbbbbbbbbbbbbbb", score := 1,
    document_id := str "d", filename := str "f" }

/-- A chunk with a 30-character text, longer than budget 20 on its own. -/
def chunk_thirty : RetrievedChunk :=
  { chunk_id := str "c3", text := str "cccccccccccccccccccccccccccccc", score := 1,
    document_id := str "d", filename := str "f" }

/-- C1. For every list of search results, the Retrieval Gate's output
contains exactly the results whose similarity score is at or above the
threshold, in the original relative order (a sublist of the input's image),
and no result below threshold ever appears; with threshold 0.7 and scores
[0.9, 0.75, 0.6, 0.5, 0.3] the gate yields exactly the two chunks scored
0.9 and 0.75. -/
theorem retrieval_gate_threshold_filtering :
    (∀ (results : List SearchResult) (threshold : Rat),
       (∀ chunk ∈ relevant_chunks_filter results threshold, threshold ≤ chunk.score)
       ∧ (∀ result ∈ results, threshold ≤ result.score →
            result_to_chunk result ∈ relevant_chunks_filter results threshold)
       ∧ List.Sublist (relevant_chunks_filter results threshold)
           (results.map result_to_chunk))
    ∧ (retrieve_relevant_chunks svc_scenario (str "q")).2 =
        Except.ok [result_to_chunk scenario_result_1, result_to_chunk scenario_result_2] := by
  constructor
  · intro results threshold
    refine ⟨?_, ?_, ?_⟩
    · intro chunk hmem
      rcases List.mem_map.mp hmem with ⟨result, hr, rfl⟩
      rcases List.mem_filter.mp hr with ⟨-, hscore⟩
      simpa [result_to_chunk] using of_decide_eq_true hscore
    · intro result hmem hscore
      exact List.mem_map_of_mem result_to_chunk
        (List.mem_filter.mpr ⟨hmem, decide_eq_true hscore⟩)
    · exact (List.filter_sublist results).map result_to_chunk
  · decide

/-- Witness for C1: the result scored 0.75 clears threshold 0.7 and its
chunk appears in the gate's output for the scenario results. -/
theorem retrieval_gate_threshold_filtering_witness :
    result_to_chunk scenario_result_2 ∈
      relevant_chunks_filter scenario_results (mkRat 7 10) :=
  (retrieval_gate_threshold_filtering.1 scenario_results (mkRat 7 10)).2.1
    scenario_result_2 (by decide) (by decide)

/-- C2 counterexample: with budget 20 and one chunk of raw text length 10,
the builder accepts the chunk (10 is within budget) but the returned
context is 25 characters long, because the source label is not counted
against the budget; so the returned string exceeds the budget although the
first candidate alone fits, and it is not empty. -/
theorem context_budget_exceeded_by_labels :
    chunk_ten.text.length ≤ svc_budget_20.max_context_length
    ∧ svc_budget_20.max_context_length = 20
    ∧ (build_context svc_budget_20 [chunk_ten]).length = 25
    ∧ build_context svc_budget_20 [chunk_ten] ≠ [] := by decide

/-- C2 as amended: what the budget bounds is the total character length of
the raw chunk texts the builder includes (source labels and blank-line
separators are not counted), and when even the first chunk's raw text
alone exceeds the budget the result is the empty string. -/
theorem context_builder_raw_budget :
    ∀ (svc : CustomRAGService) (chunks : List RetrievedChunk),
      raw_text_length (included_chunks svc chunks) ≤ svc.max_context_length
      ∧ (∀ chunk rest, chunks = chunk :: rest →
           svc.max_context_length < chunk.text.length →
           build_context svc chunks = []) := by
  intro svc chunks
  constructor
  · simpa [included_chunks] using
      included_chunks_loop_raw_le svc.max_context_length chunks 0 (Nat.zero_le _)
  · intro chunk rest hEq hlen
    subst hEq
    exact build_context_first_too_long svc chunk rest hlen

/-- Witness for the amended C2 at budget 20: a 30-character first chunk is
rejected outright and the included raw text stays within budget. -/
theorem context_builder_raw_budget_witness :
    raw_text_length (included_chunks svc_budget_20 [chunk_thirty]) ≤ 20
    ∧ build_context svc_budget_20 [chunk_thirty] = [] :=
  ⟨(context_builder_raw_budget svc_budget_20 [chunk_thirty]).1,
   (context_builder_raw_budget svc_budget_20 [chunk_thirty]).2
     chunk_thirty [] rfl (by decide)⟩

/-- C3. The Context Builder accumulates chunks greedily in the given order
(the included chunks are a prefix of the input), stops before the first
chunk whose raw text would push the accumulated count over the budget,
includes every accepted chunk's text wholesale in the output, returns the
empty string on empty input, and returns the empty string when the first
chunk's text alone exceeds the budget. -/
theorem context_builder_greedy :
    ∀ (svc : CustomRAGService) (chunks : List RetrievedChunk),
      build_context svc [] = []
      ∧ (∀ chunk rest, chunks = chunk :: rest →
           svc.max_context_length < chunk.text.length → build_context svc chunks = [])
      ∧ (∃ t, included_chunks svc chunks ++ t = chunks)
      ∧ (∀ chunk, (chunks.drop (included_chunks svc chunks).length).head? = some chunk →
           svc.max_context_length <
             raw_text_length (included_chunks svc chunks) + chunk.text.length)
      ∧ (∀ chunk, chunk ∈ included_chunks svc chunks →
           ∃ pre post, build_context svc chunks = pre ++ chunk.text ++ post) := by
  intro svc chunks
  refine ⟨build_context_nil svc, ?_, ?_, ?_, ?_⟩
  · intro chunk rest hEq hlen
    subst hEq
    exact build_context_first_too_long svc chunk rest hlen
  · simpa [included_chunks] using
      included_chunks_loop_fits svc.max_context_length chunks 0
  · intro chunk h
    have hstop := included_chunks_loop_stop svc.max_context_length chunks 0 chunk
      (by simpa [included_chunks] using h)
    simpa [included_chunks] using hstop
  · intro chunk h
    exact build_context_wholesale svc chunks chunk h

/-- Witness for C3 at budget 20 with texts of lengths [10, 15]: the
builder includes a prefix (just the first chunk, since 10 + 15 > 20) and
the first chunk's text occurs wholesale in the output. -/
theorem context_builder_greedy_witness :
    (∃ t, included_chunks svc_budget_20 [chunk_ten, chunk_fifteen] ++ t =
       [chunk_ten, chunk_fifteen])
    ∧ (∃ pre post, build_context svc_budget_20 [chunk_ten, chunk_fifteen] =
         pre ++ chunk_ten.text ++ post) :=
  ⟨(context_builder_greedy svc_budget_20 [chunk_ten, chunk_fifteen]).2.2.1,
   (context_builder_greedy svc_budget_20 [chunk_ten, chunk_fifteen]).2.2.2.2
     chunk_ten (by decide)⟩

/-- The Retrieval Gate's recorded calls are embedding/search calls only. -/
theorem retrieve_relevant_chunks_trace (svc : CustomRAGService) (query : Str) :
    ∀ event ∈ (retrieve_relevant_chunks svc query).1, event.isRetrievalCall = true := by
  intro event h
  unfold retrieve_relevant_chunks at h
  cases he : svc.embedding_service query with
  | error e =>
    rw [he] at h
    simp at h
    subst h
    rfl
  | ok vec =>
    rw [he] at h
    dsimp only at h
    cases hs : svc.vector_store_search vec svc.top_k with
    | error e =>
      rw [hs] at h
      simp at h
      rcases h with rfl | rfl <;> rfl
    | ok results =>
      rw [hs] at h
      simp at h
      rcases h with rfl | rfl <;> rfl

/-- A service used for no-RAG turns: the model answers, and the retrieval
collaborators fail if they are ever reached. -/
def svc_llm_ok : CustomRAGService :=
  { embedding_service := fun _ => Except.error (str "unreachable")
    vector_store_search := fun _ _ => Except.error (str "unreachable")
    llm_service := fun _ _ _ => Except.ok (str "hello")
    settings := stub_settings
    top_k := 5
    similarity_threshold := mkRat 7 10
    max_context_length := 3000 }

/-- A service whose vector search finds nothing. -/
def svc_no_hits : CustomRAGService :=
  { embedding_service := fun _ => Except.ok [1]
    vector_store_search := fun _ _ => Except.ok []
    llm_service := fun _ _ _ => Except.ok (str "hello")
    settings := stub_settings
    top_k := 5
    similarity_threshold := mkRat 7 10
    max_context_length := 3000 }

/-- A service whose embedding provider raises. -/
def svc_embed_down : CustomRAGService :=
  { embedding_service := fun _ => Except.error (str "boom")
    vector_store_search := fun _ _ => Except.ok []
    llm_service := fun _ _ _ => Except.ok (str "hello")
    settings := stub_settings
    top_k := 5
    similarity_threshold := mkRat 7 10
    max_context_length := 3000 }

/-- C4. With `use_rag = false`, neither the embedding provider nor the
vector search is invoked (no retrieval call appears in the trace), the
plain conversational system instruction is the one sent to the model, and
on success the returned sources list is empty. -/
theorem no_rag_skips_retrieval :
    ∀ (svc : CustomRAGService) (store : List Msg) (session_id query : Str),
      (∀ event ∈ (generate_response svc store session_id query false).trace,
         event.isRetrievalCall = false)
      ∧ CallEvent.llm
          (prompt_messages plain_system_prompt (get_context_window store 6) query) ∈
          (generate_response svc store session_id query false).trace
      ∧ (∀ response sources,
           (generate_response svc store session_id query false).result =
             Except.ok (response, sources) → sources = []) := by
  intro svc store session_id query
  rw [generate_response_no_rag]
  cases hll : svc.llm_service
      (prompt_messages plain_system_prompt (get_context_window store 6) query)
      svc.settings.llm_temperature svc.settings.max_tokens with
  | error e =>
    rw [generate_finish_llm_error svc store session_id query _ _ _ _ e hll]
    refine ⟨?_, ?_, ?_⟩
    · intro event h
      simp at h
      rcases h with rfl | rfl <;> rfl
    · simp
    · intro response sources h
      simp at h
  | ok resp =>
    rw [generate_finish_llm_ok svc store session_id query _ _ _ _ resp hll]
    refine ⟨?_, ?_, ?_⟩
    · intro event h
      simp at h
      rcases h with rfl | rfl | rfl | rfl <;> rfl
    · simp
    · intro response sources h
      simp at h
      exact h.2

/-- Witness for C4: a concrete no-RAG turn makes no retrieval call (the
history read is not one), the plain instruction reaches the model, and the
successful turn's sources are empty. -/
theorem no_rag_skips_retrieval_witness :
    (CallEvent.memRead (str "s") 6).isRetrievalCall = false
    ∧ CallEvent.llm
        (prompt_messages plain_system_prompt (get_context_window [] 6) (str "q")) ∈
        (generate_response svc_llm_ok [] (str "s") (str "q") false).trace
    ∧ ([] : List RetrievedChunk) = [] :=
  ⟨(no_rag_skips_retrieval svc_llm_ok [] (str "s") (str "q")).1
     (CallEvent.memRead (str "s") 6) (by decide),
   (no_rag_skips_retrieval svc_llm_ok [] (str "s") (str "q")).2.1,
   (no_rag_skips_retrieval svc_llm_ok [] (str "s") (str "q")).2.2
     (str "hello") [] (by decide)⟩

/-- C5. With `use_rag = true` and a successful retrieval that yields zero
chunks, generation still proceeds: the message list sent to the model
carries the ungrounded ("no relevant knowledge") system instruction, not
the grounded one, and on success the returned sources list is empty. -/
theorem ungrounded_fallback :
    ∀ (svc : CustomRAGService) (store : List Msg) (session_id query : Str)
      (rtrace : List CallEvent),
      retrieve_relevant_chunks svc query = (rtrace, Except.ok []) →
      CallEvent.llm
          (prompt_messages ungrounded_system_prompt (get_context_window store 6) query) ∈
          (generate_response svc store session_id query true).trace
      ∧ (∀ response sources,
           (generate_response svc store session_id query true).result =
             Except.ok (response, sources) → sources = []) := by
  intro svc store session_id query rtrace hret
  rw [generate_response_retrieval_ok svc store session_id query rtrace [] hret]
  simp only [List.isEmpty_nil, if_true]
  cases hll : svc.llm_service
      (prompt_messages ungrounded_system_prompt (get_context_window store 6) query)
      svc.settings.llm_temperature svc.settings.max_tokens with
  | error e =>
    rw [generate_finish_llm_error svc store session_id query _ _ _ _ e hll]
    refine ⟨by simp, ?_⟩
    intro response sources h
    simp at h
  | ok resp =>
    rw [generate_finish_llm_ok svc store session_id query _ _ _ _ resp hll]
    refine ⟨by simp, ?_⟩
    intro response sources h
    simp at h
    exact h.2

/-- Witness for C5: with a search that finds nothing, the ungrounded
instruction is sent and the successful turn's sources are empty. -/
theorem ungrounded_fallback_witness :
    CallEvent.llm
        (prompt_messages ungrounded_system_prompt (get_context_window [] 6) (str "q")) ∈
        (generate_response svc_no_hits [] (str "s") (str "q") true).trace
    ∧ ([] : List RetrievedChunk) = [] :=
  ⟨(ungrounded_fallback svc_no_hits [] (str "s") (str "q")
      [CallEvent.embed (str "q"), CallEvent.search [1] 5] (by decide)).1,
   (ungrounded_fallback svc_no_hits [] (str "s") (str "q")
      [CallEvent.embed (str "q"), CallEvent.search [1] 5] (by decide)).2
     (str "hello") [] (by decide)⟩

/-- C6 counterexample: when the embedding provider raises, the exception
propagates out of `generate_response` — the turn does not proceed in
ungrounded mode (the model is never called) and the error is surfaced to
the caller, contrary to the claim of local recovery. -/
theorem retrieval_failure_surfaces :
    svc_embed_down.embedding_service (str "q") = Except.error (str "boom")
    ∧ (generate_response svc_embed_down [] (str "s") (str "q") true).result =
        Except.error (str "boom")
    ∧ (generate_response svc_embed_down [] (str "s") (str "q") true).trace =
        [CallEvent.memRead (str "s") 6, CallEvent.embed (str "q")] := by decide

/-- C6 as amended: a retrieval failure (embedding provider or vector
search raising) propagates out of `generate_response`: the turn fails with
that very error (there is no local recovery and the caller sees the
failure), the language model is never invoked, and the conversation store
is unchanged. -/
theorem retrieval_failure_propagates :
    ∀ (svc : CustomRAGService) (store : List Msg) (session_id query e : Str),
      (svc.embedding_service query = Except.error e →
         (generate_response svc store session_id query true).result = Except.error e
         ∧ (generate_response svc store session_id query true).store = store
         ∧ ∀ messages, CallEvent.llm messages ∉
             (generate_response svc store session_id query true).trace)
      ∧ (∀ vec, svc.embedding_service query = Except.ok vec →
           svc.vector_store_search vec svc.top_k = Except.error e →
           (generate_response svc store session_id query true).result = Except.error e
           ∧ (generate_response svc store session_id query true).store = store
           ∧ ∀ messages, CallEvent.llm messages ∉
               (generate_response svc store session_id query true).trace) := by
  intro svc store session_id query e
  constructor
  · intro hembed
    have hret : retrieve_relevant_chunks svc query =
        ([CallEvent.embed query], Except.error e) := by
      unfold retrieve_relevant_chunks
      rw [hembed]
    rw [generate_response_retrieval_error svc store session_id query _ e hret]
    refine ⟨rfl, rfl, ?_⟩
    intro messages hmem
    simp at hmem
  · intro vec hembed hsearch
    have hret : retrieve_relevant_chunks svc query =
        ([CallEvent.embed query, CallEvent.search vec svc.top_k], Except.error e) := by
      unfold retrieve_relevant_chunks
      rw [hembed]
      dsimp only
      rw [hsearch]
    rw [generate_response_retrieval_error svc store session_id query _ e hret]
    refine ⟨rfl, rfl, ?_⟩
    intro messages hmem
    simp at hmem

/-- Witness for the amended C6 at a concrete failing embedding provider:
the error is surfaced and the store is unchanged. -/
theorem retrieval_failure_propagates_witness :
    (generate_response svc_embed_down [] (str "s") (str "q") true).result =
      Except.error (str "boom")
    ∧ (generate_response svc_embed_down [] (str "s") (str "q") true).store = [] :=
  ⟨((retrieval_failure_propagates svc_embed_down [] (str "s") (str "q") (str "boom")).1 rfl).1,
   ((retrieval_failure_propagates svc_embed_down [] (str "s") (str "q") (str "boom")).1 rfl).2.1⟩

/-- A service whose language-model backend always raises. -/
def svc_llm_down : CustomRAGService :=
  { embedding_service := fun _ => Except.ok [1]
    vector_store_search := fun _ _ => Except.ok []
    llm_service := fun _ _ _ => Except.error (str "llm down")
    settings := stub_settings
    top_k := 5
    similarity_threshold := mkRat 7 10
    max_context_length := 3000 }

/-- C7. A failed turn is atomic: whenever `generate_response` returns an
error, the conversation store is unchanged and no store append was made;
and whenever the language-model backend fails on every input, the turn
does fail (no partial answer is returned). -/
theorem generation_failure_atomic :
    ∀ (svc : CustomRAGService) (store : List Msg) (session_id query : Str)
      (use_rag : Bool),
      (∀ e, (generate_response svc store session_id query use_rag).result =
          Except.error e →
        (generate_response svc store session_id query use_rag).store = store
        ∧ ∀ sid role content, CallEvent.memAppend sid role content ∉
            (generate_response svc store session_id query use_rag).trace)
      ∧ (∀ e, (∀ messages temperature max_tokens,
            svc.llm_service messages temperature max_tokens = Except.error e) →
          ∃ e2, (generate_response svc store session_id query use_rag).result =
            Except.error e2) := by
  intro svc store session_id query use_rag
  constructor
  · intro e h
    cases use_rag with
    | false =>
      rw [generate_response_no_rag] at h ⊢
      cases hll : svc.llm_service
          (prompt_messages plain_system_prompt (get_context_window store 6) query)
          svc.settings.llm_temperature svc.settings.max_tokens with
      | error e1 =>
        rw [generate_finish_llm_error svc store session_id query _ _ _ _ e1 hll] at h ⊢
        refine ⟨rfl, ?_⟩
        intro sid role content hmem
        simp at hmem
      | ok resp =>
        rw [generate_finish_llm_ok svc store session_id query _ _ _ _ resp hll] at h
        simp at h
    | true =>
      rcases hret : retrieve_relevant_chunks svc query with ⟨rtrace, rres⟩
      have htr : ∀ ev ∈ rtrace, ev.isRetrievalCall = true := by
        intro ev hv
        exact retrieve_relevant_chunks_trace svc query ev (by rw [hret]; exact hv)
      cases rres with
      | error e0 =>
        rw [generate_response_retrieval_error svc store session_id query rtrace e0 hret] at h ⊢
        refine ⟨rfl, ?_⟩
        intro sid role content hmem
        simp at hmem
        have := htr _ hmem
        simp [CallEvent.isRetrievalCall] at this
      | ok sources =>
        rw [generate_response_retrieval_ok svc store session_id query rtrace sources hret] at h ⊢
        cases hll : svc.llm_service
            (prompt_messages
              (if sources.isEmpty then ungrounded_system_prompt
               else grounded_system_prompt (build_context svc sources))
              (get_context_window store 6) query)
            svc.settings.llm_temperature svc.settings.max_tokens with
        | error e1 =>
          rw [generate_finish_llm_error svc store session_id query _ _ _ _ e1 hll] at h ⊢
          refine ⟨rfl, ?_⟩
          intro sid role content hmem
          simp at hmem
          have := htr _ hmem
          simp [CallEvent.isRetrievalCall] at this
        | ok resp =>
          rw [generate_finish_llm_ok svc store session_id query _ _ _ _ resp hll] at h
          simp at h
  · intro e hfail
    cases use_rag with
    | false =>
      rw [generate_response_no_rag]
      rw [generate_finish_llm_error svc store session_id query _ _ _ _ e (hfail _ _ _)]
      exact ⟨e, rfl⟩
    | true =>
      rcases hret : retrieve_relevant_chunks svc query with ⟨rtrace, rres⟩
      cases rres with
      | error e0 =>
        rw [generate_response_retrieval_error svc store session_id query rtrace e0 hret]
        exact ⟨e0, rfl⟩
      | ok sources =>
        rw [generate_response_retrieval_ok svc store session_id query rtrace sources hret]
        rw [generate_finish_llm_error svc store session_id query _ _ _ _ e (hfail _ _ _)]
        exact ⟨e, rfl⟩

/-- Witness for C7: with a backend that always fails, a concrete turn
leaves the conversation store unchanged. -/
theorem generation_failure_atomic_witness :
    (generate_response svc_llm_down [] (str "s") (str "q") true).store = [] :=
  ((generation_failure_atomic svc_llm_down [] (str "s") (str "q") true).1
    (str "llm down") (by decide)).1

/-- C8. History is read before any appending (the history string in the
model's message list is computed from the pre-call store), and on every
successful turn — including the ungrounded and no-RAG branches — exactly
two messages are appended for the session: the user query first, then the
assistant answer, with both appends coming after the model call. -/
theorem history_read_then_append :
    ∀ (svc : CustomRAGService) (store : List Msg) (session_id query : Str)
      (use_rag : Bool) (response : Str) (sources : List RetrievedChunk),
      (generate_response svc store session_id query use_rag).result =
        Except.ok (response, sources) →
      (generate_response svc store session_id query use_rag).store =
        store ++ [{ role := str "user", content := query },
                  { role := str "assistant", content := response }]
      ∧ ∃ system_prompt trace0,
          (generate_response svc store session_id query use_rag).trace =
            trace0 ++
              [CallEvent.llm
                 (prompt_messages system_prompt (get_context_window store 6) query),
               CallEvent.memAppend session_id (str "user") query,
               CallEvent.memAppend session_id (str "assistant") response] := by
  intro svc store session_id query use_rag response sources h
  cases use_rag with
  | false =>
    rw [generate_response_no_rag] at h ⊢
    cases hll : svc.llm_service
        (prompt_messages plain_system_prompt (get_context_window store 6) query)
        svc.settings.llm_temperature svc.settings.max_tokens with
    | error e =>
      rw [generate_finish_llm_error svc store session_id query _ _ _ _ e hll] at h
      simp at h
    | ok resp =>
      rw [generate_finish_llm_ok svc store session_id query _ _ _ _ resp hll] at h ⊢
      simp at h
      obtain ⟨rfl, -⟩ := h
      exact ⟨rfl, plain_system_prompt, [CallEvent.memRead session_id 6], rfl⟩
  | true =>
    rcases hret : retrieve_relevant_chunks svc query with ⟨rtrace, rres⟩
    cases rres with
    | error e0 =>
      rw [generate_response_retrieval_error svc store session_id query rtrace e0 hret] at h
      simp at h
    | ok sources0 =>
      rw [generate_response_retrieval_ok svc store session_id query rtrace sources0 hret] at h ⊢
      cases hll : svc.llm_service
          (prompt_messages
            (if sources0.isEmpty then ungrounded_system_prompt
             else grounded_system_prompt (build_context svc sources0))
            (get_context_window store 6) query)
          svc.settings.llm_temperature svc.settings.max_tokens with
      | error e =>
        rw [generate_finish_llm_error svc store session_id query _ _ _ _ e hll] at h
        simp at h
      | ok resp =>
        rw [generate_finish_llm_ok svc store session_id query _ _ _ _ resp hll] at h ⊢
        simp at h
        obtain ⟨rfl, -⟩ := h
        exact ⟨rfl,
          (if sources0.isEmpty then ungrounded_system_prompt
           else grounded_system_prompt (build_context svc sources0)),
          [CallEvent.memRead session_id 6] ++ rtrace, by simp⟩

/-- Witness for C8: a concrete successful no-RAG turn appends exactly the
user query then the assistant answer to the empty store. -/
theorem history_read_then_append_witness :
    (generate_response svc_llm_ok [] (str "s") (str "q") false).store =
      [{ role := str "user", content := str "q" },
       { role := str "assistant", content := str "hello" }] :=
  (history_read_then_append svc_llm_ok [] (str "s") (str "q") false
    (str "hello") [] (by decide)).1

/-- C9 counterexample: an unknown chunking strategy in the upload request's
form field raises its `ValueError` inside the request handler's chunking
step (`ingestion.py` line 90 calling `chunk_text`), not at
construction/startup time — the strategy is a per-request parameter. -/
theorem chunking_strategy_error_per_request :
    upload_document_chunking (fun _ => []) (fun _ => []) (str "foo") (str "doc text") =
      Except.error (str "Unknown chunking strategy: foo") := by decide

/-- C9 as amended: the unsupported-provider errors are raised by the
startup factories — `create_llm_service` and `create_vector_store` reject
exactly the provider names they do not support, and these run once when
`backend/services/services.py` is first loaded — but the unknown-chunking-strategy
error is raised by `chunk_text` during handling of the individual upload
request whose form field names the strategy. -/
theorem config_validation_errors :
    ∀ (llm_provider vector_db_type strategy text : Str)
      (chunk_fixed chunk_semantic : Str → List Str),
      (llm_provider ≠ str "openai" →
         create_llm_service llm_provider =
           Except.error (str "Unsupported LLM provider: " ++ llm_provider))
      ∧ create_llm_service (str "openai") = Except.ok LLMProviderKind.openai
      ∧ (vector_db_type ≠ str "qdrant" →
         create_vector_store vector_db_type =
           Except.error (str "Unsupported vector DB type: " ++ vector_db_type))
      ∧ create_vector_store (str "qdrant") = Except.ok VectorStoreKind.qdrant
      ∧ (strategy ≠ str "fixed" → strategy ≠ str "semantic" →
         upload_document_chunking chunk_fixed chunk_semantic strategy text =
           Except.error (str "Unknown chunking strategy: " ++ strategy)) := by
  intro llm_provider vector_db_type strategy text chunk_fixed chunk_semantic
  refine ⟨?_, by decide, ?_, by decide, ?_⟩
  · intro h
    simp [create_llm_service, h]
  · intro h
    simp [create_vector_store, h]
  · intro h1 h2
    simp [upload_document_chunking, chunk_text, h1, h2]

/-- Witness for the amended C9: the factory rejects a concrete unsupported
provider and the upload handler's chunking step rejects a concrete unknown
strategy. -/
theorem config_validation_errors_witness :
    create_llm_service (str "anthropic") =
      Except.error (str "Unsupported LLM provider: " ++ str "anthropic")
    ∧ upload_document_chunking (fun _ => []) (fun _ => []) (str "tokenwise") (str "doc") =
        Except.error (str "Unknown chunking strategy: " ++ str "tokenwise") :=
  ⟨(config_validation_errors (str "anthropic") (str "qdrant") (str "tokenwise")
      (str "doc") (fun _ => []) (fun _ => [])).1 (by decide),
   (config_validation_errors (str "anthropic") (str "qdrant") (str "tokenwise")
      (str "doc") (fun _ => []) (fun _ => [])).2.2.2.2 (by decide) (by decide)⟩

/-- A high-scoring search result whose 5-character chunk fills budget 5. -/
def search_result_a : SearchResult :=
  { id := str "rA", score := mkRat 9 10, chunk_text := str "abcde",
    document_id := str "d", filename := str "fA" }

/-- A second above-threshold result whose chunk no longer fits the budget. -/
def search_result_b : SearchResult :=
  { id := str "rB", score := mkRat 4 5, chunk_text := str "zzz",
    document_id := str "d", filename := str "fB" }

def chunk_a : RetrievedChunk := result_to_chunk search_result_a

def chunk_b : RetrievedChunk := result_to_chunk search_result_b

/-- A service with context budget 5 whose search returns two above-threshold
results; the second one cannot fit in the context. -/
def svc_small_budget : CustomRAGService :=
  { embedding_service := fun _ => Except.ok [1]
    vector_store_search := fun _ _ => Except.ok [search_result_a, search_result_b]
    llm_service := fun _ _ _ => Except.ok (str "ans")
    settings := stub_settings
    top_k := 5
    similarity_threshold := mkRat 7 10
    max_context_length := 5 }

/-- C10. On every successful `use_rag = true` turn, the returned sources
list is exactly the full threshold-filtered retrieval result in rank
order, independent of the Context Builder; concretely, a turn can return a
source whose text is absent from the context built for the model because
the budget excluded it. -/
theorem sources_full_filtered_list :
    (∀ (svc : CustomRAGService) (store : List Msg) (session_id query : Str)
       (vec : List Rat) (results : List SearchResult)
       (response : Str) (sources : List RetrievedChunk),
       svc.embedding_service query = Except.ok vec →
       svc.vector_store_search vec svc.top_k = Except.ok results →
       (generate_response svc store session_id query true).result =
         Except.ok (response, sources) →
       sources = relevant_chunks_filter results svc.similarity_threshold)
    ∧ (generate_response svc_small_budget [] (str "s") (str "q") true).result =
        Except.ok (str "ans", [chunk_a, chunk_b])
    ∧ ¬ (chunk_b.text <:+: build_context svc_small_budget [chunk_a, chunk_b]) := by
  refine ⟨?_, by decide, by decide⟩
  intro svc store session_id query vec results response sources hembed hsearch h
  have hret : retrieve_relevant_chunks svc query =
      ([CallEvent.embed query, CallEvent.search vec svc.top_k],
       Except.ok (relevant_chunks_filter results svc.similarity_threshold)) := by
    unfold retrieve_relevant_chunks
    rw [hembed]
    dsimp only
    rw [hsearch]
  rw [generate_response_retrieval_ok svc store session_id query _ _ hret] at h
  cases hll : svc.llm_service
      (prompt_messages
        (if (relevant_chunks_filter results svc.similarity_threshold).isEmpty then
          ungrounded_system_prompt
         else
          grounded_system_prompt
            (build_context svc (relevant_chunks_filter results svc.similarity_threshold)))
        (get_context_window store 6) query)
      svc.settings.llm_temperature svc.settings.max_tokens with
  | error e =>
    rw [generate_finish_llm_error svc store session_id query _ _ _ _ e hll] at h
    simp at h
  | ok resp =>
    rw [generate_finish_llm_ok svc store session_id query _ _ _ _ resp hll] at h
    simp at h
    exact h.2.symm

/-- Witness for C10: for the concrete two-result search, the returned
sources are the full filtered list even though the second chunk was not in
the built context. -/
theorem sources_full_filtered_list_witness :
    [chunk_a, chunk_b] =
      relevant_chunks_filter [search_result_a, search_result_b]
        svc_small_budget.similarity_threshold :=
  sources_full_filtered_list.1 svc_small_budget [] (str "s") (str "q") [1]
    [search_result_a, search_result_b] (str "ans") [chunk_a, chunk_b]
    rfl rfl (by decide)
